import Mathlib

/-!
Shallow embedding of ember-simple-auth's OAuth2 password-grant authenticator
(packages/.../authenticators/oauth2-password-grant.js) and the internal session
manager (packages/ember-simple-auth/src/internal-session.js).

Network and persistence effects are passed in as explicit oracle parameters
(`Except`-valued request outcomes, a `persistOk` flag); time is an explicit
`Int` parameter (epoch milliseconds); timers are modelled as an explicit list
of pending refresh-timer records.
-/

deriving instance DecidableEq for Except

namespace ESA

/-- Ember `isEmpty` on an optional string: `null`/`undefined` and `""` are
empty. -/
def strEmpty : Option String → Bool
  | none => true
  | some s => s.isEmpty

/-- Ember `isEmpty` on an optional number: only `null`/`undefined` is empty
(`isEmpty(0)` is `false`). -/
def intEmpty : Option Int → Bool
  | none => true
  | some _ => false

/-- JS `a || b` on optional numbers: `undefined` and `0` are falsy. -/
def orIntJS (a b : Option Int) : Option Int :=
  match a with
  | some v => if v = 0 then b else some v
  | none => b

/-- JS `a || b` on optional strings: `undefined` and `""` are falsy. -/
def orStrJS (a b : Option String) : Option String :=
  match a with
  | some s => if s.isEmpty then b else some s
  | none => b

/-- The OAuth2 token-response / session-data fields the authenticator reads
and writes (`access_token`, `token_type`, `expires_in`, `expires_at`,
`refresh_token`, `scope`). Absent JSON keys are `none`. -/
structure TokenData where
  access_token : Option String
  token_type : Option String
  expires_in : Option Int
  expires_at : Option Int
  refresh_token : Option String
  scope : Option String
  deriving Repr, DecidableEq

def TokenData.empty : TokenData := ⟨none, none, none, none, none, none⟩

/-- Configuration of the OAuth2 password-grant authenticator, plus the two
environment flags it consults (`isFastBoot`, `isTesting`). -/
structure AuthConfig where
  clientId : Option String
  serverTokenEndpoint : String
  serverTokenRevocationEndpoint : Option String
  refreshAccessTokens : Bool
  refreshAccessTokensWithScope : Bool
  isFastBoot : Bool
  isTesting : Bool
  deriving Repr, DecidableEq

/-- A pending refresh timer as created by `later(this, this._refreshAccessToken,
expiresIn, refreshToken, delay)`: the captured arguments and the delay. -/
structure RefreshTimer where
  expiresIn : Option Int
  refreshToken : Option String
  delay : Int
  deriving Repr, DecidableEq

/-- `_validate(data)`: `!isEmpty(data['access_token'])`. -/
def validate (data : TokenData) : Bool :=
  !strEmpty data.access_token

/-- The expiry used by `_scheduleAccessTokenRefresh`: if `expiresAt` is empty
and `expiresIn` is not, `expiresAt = now + expiresIn * 1000`. -/
def derivedExpiry (now : Int) (expiresIn expiresAt : Option Int) : Option Int :=
  match expiresAt with
  | some v => some v
  | none =>
    match expiresIn with
    | some e => some (now + e * 1000)
    | none => none

/-- `_scheduleAccessTokenRefresh(expiresIn, expiresAt, refreshToken)` acting on
the list of pending timers (the source has a single `_refreshTokenTimeout`
slot; `cancel` + `delete` empties the list, `later` adds the new timer). -/
def scheduleAccessTokenRefresh (cfg : AuthConfig) (offset now : Int)
    (expiresIn expiresAt : Option Int) (refreshToken : Option String)
    (pending : List RefreshTimer) : List RefreshTimer :=
  if cfg.refreshAccessTokens && !cfg.isFastBoot then
    match derivedExpiry now expiresIn expiresAt with
    | some ea =>
      if !strEmpty refreshToken && decide (now - offset < ea) then
        if cfg.isTesting then []
        else [⟨expiresIn, refreshToken, ea - now - offset⟩]
      else pending
    | none => pending
  else pending

/-- Outcome of `_refreshAccessToken` (and of `restore`): the settled value,
the `sessionDataUpdated` events triggered, and the pending timers after the
call. -/
structure RefreshStep where
  result : Except Unit TokenData
  events : List TokenData
  timers : List RefreshTimer
  deriving Repr, DecidableEq

/-- `_refreshAccessToken(expiresIn, refreshToken, scope)`. The token-endpoint
response is the oracle parameter `response`; `now` is the time at which the
response is processed. -/
def refreshAccessToken (cfg : AuthConfig) (offset now : Int)
    (expiresIn : Option Int) (refreshToken scope : Option String)
    (response : Except Unit TokenData) (pending : List RefreshTimer) :
    RefreshStep :=
  match response with
  | Except.error _ => ⟨Except.error (), [], pending⟩
  | Except.ok resp =>
    let ei := orIntJS resp.expires_in expiresIn
    let rt := orStrJS resp.refresh_token refreshToken
    let sc := orStrJS resp.scope scope
    let ea : Option Int :=
      match ei with
      | some e => some (now + e * 1000)
      | none => none
    let d0 : TokenData := { resp with expires_in := ei, expires_at := ea, refresh_token := rt }
    let d : TokenData :=
      if cfg.refreshAccessTokensWithScope && !strEmpty sc then { d0 with scope := sc } else d0
    let timers := scheduleAccessTokenRefresh cfg offset now ei none rt pending
    ⟨Except.ok d, [d], timers⟩

/-- `data['expires_at']` is set and in the past (`!isEmpty(data['expires_at'])
&& data['expires_at'] < now`). -/
def isExpired (data : TokenData) (now : Int) : Bool :=
  match data.expires_at with
  | some v => decide (v < now)
  | none => false

/-- The authenticator's `restore(data)`. `now` is the time at which `restore`
runs, `nowR` the (not earlier) time at which a triggered refresh response is
processed; `response` is the token-endpoint oracle for that refresh. -/
def authRestore (cfg : AuthConfig) (offset now nowR : Int) (data : TokenData)
    (response : Except Unit TokenData) (pending : List RefreshTimer) :
    RefreshStep :=
  if isExpired data now then
    if cfg.refreshAccessTokens then
      refreshAccessToken cfg offset nowR data.expires_in data.refresh_token data.scope
        response pending
    else ⟨Except.error (), [], pending⟩
  else
    if !validate data then ⟨Except.error (), [], pending⟩
    else
      ⟨Except.ok data, [],
        scheduleAccessTokenRefresh cfg offset now data.expires_in data.expires_at
          data.refresh_token pending⟩

/-- An opaque HTTP error response (rejected by `makeRequest`). -/
structure ErrResp where
  body : String
  deriving Repr, DecidableEq

/-- What the `authenticate` promise rejects with: the raw error response (HTTP
failure) or a plain message string. -/
inductive AuthReject where
  | raw (r : ErrResp)
  | msg (s : String)
  deriving Repr, DecidableEq

/-- Outcome of the authenticator's `authenticate`: the settled value, the
pending timers after the call, and the final state of the (mutable) HTTP
success-response object, `none` when the HTTP call itself failed. -/
structure AuthenticateStep where
  result : Except AuthReject TokenData
  timers : List RefreshTimer
  response : Option TokenData
  deriving Repr, DecidableEq

/-- The authenticator's `authenticate`. On HTTP success the code first calls
`reject(...)` when validation fails (the first settlement wins), but — with no
early return — still schedules a refresh and still attaches `expires_at` to
the response object via `Object.assign`. -/
def authAuthenticate (cfg : AuthConfig) (offset now : Int)
    (httpResult : Except ErrResp TokenData) (pending : List RefreshTimer) :
    AuthenticateStep :=
  match httpResult with
  | Except.error r => ⟨Except.error (AuthReject.raw r), pending, none⟩
  | Except.ok resp =>
    let expiresAt : Option Int :=
      match resp.expires_in with
      | some e => some (now + e * 1000)
      | none => none
    let timers := scheduleAccessTokenRefresh cfg offset now resp.expires_in expiresAt
      resp.refresh_token pending
    let resp' : TokenData :=
      match expiresAt with
      | some ea => { resp with expires_at := some ea }
      | none => resp
    if !validate resp then
      ⟨Except.error (AuthReject.msg "access_token is missing in server response"), timers,
        some resp'⟩
    else ⟨Except.ok resp', timers, some resp'⟩

/-- One revocation `POST` issued by `invalidate`. -/
structure RevocationRequest where
  endpoint : String
  token_type_hint : String
  token : String
  deriving Repr, DecidableEq

/-- Outcome of the authenticator's `invalidate`: the settled value, the
revocation requests issued, and the pending timers after the call. -/
structure InvalidateStep where
  result : Except Unit Unit
  requests : List RevocationRequest
  timers : List RefreshTimer
  deriving Repr, DecidableEq

/-- The authenticator's `invalidate(data)`. `outcomes` is the oracle for the
success of each issued revocation request (`Promise.all(...).then(succeed,
succeed)` resolves either way). -/
def authInvalidate (cfg : AuthConfig) (data : TokenData) (outcomes : List Bool)
    (_pending : List RefreshTimer) : InvalidateStep :=
  if strEmpty cfg.serverTokenRevocationEndpoint then ⟨Except.ok (), [], []⟩
  else
    let ep := cfg.serverTokenRevocationEndpoint.getD ""
    let requests :=
      (if strEmpty data.access_token then []
        else [RevocationRequest.mk ep "access_token" (data.access_token.getD "")]) ++
      (if strEmpty data.refresh_token then []
        else [RevocationRequest.mk ep "refresh_token" (data.refresh_token.getD "")])
    if outcomes.all (fun b => b) then ⟨Except.ok (), requests, []⟩
    else ⟨Except.ok (), requests, []⟩

/-- The `content.authenticated` sub-object of the session: the reserved
`authenticator` key plus the authenticator-issued data. -/
structure AuthedData where
  authenticator : Option String
  payload : TokenData
  deriving Repr, DecidableEq

def AuthedData.empty : AuthedData := ⟨none, TokenData.empty⟩

/-- Session content as handed to `store.persist` (and as received from store
notifications): the `authenticated` sub-object plus the other caller-set
keys. -/
structure PersistedData where
  authenticated : AuthedData
  other : List (String × String)
  deriving Repr, DecidableEq

/-- The internal session's state. -/
structure SessionState where
  isAuthenticated : Bool
  authenticator : Option String
  authenticated : AuthedData
  other : List (String × String)
  attemptedTransition : Option String
  busy : Bool
  deriving Repr, DecidableEq

/-- Events the internal session triggers on itself. -/
inductive SessionEvent where
  | authenticationSucceeded
  | invalidationSucceeded
  | sessionInvalidationFailed
  deriving Repr, DecidableEq

/-- Outcome of a session-manager operation: the resulting state, the events
triggered, and the data handed to `store.persist` (in order). -/
structure SessionStep where
  state : SessionState
  events : List SessionEvent
  persisted : List PersistedData
  deriving Repr, DecidableEq

/-- `Object.assign({ authenticator: auth }, authenticated)`: the pre-existing
`authenticator` key of the sub-object wins over the injected one. -/
def injectAuthenticator (auth : String) (a : AuthedData) : AuthedData :=
  { a with authenticator := some (a.authenticator.getD auth) }

/-- `_updateStore()`: when an authenticator is bound, `set(data,
'authenticated', Object.assign({authenticator}, data.authenticated))` mutates
the in-memory content too, then `store.persist(data)`. Returns the state after
the mutation and the persisted data. -/
def updateStore (s : SessionState) : SessionState × PersistedData :=
  if strEmpty s.authenticator then (s, ⟨s.authenticated, s.other⟩)
  else
    let a := injectAuthenticator (s.authenticator.getD "") s.authenticated
    ({ s with authenticated := a }, ⟨a, s.other⟩)

/-- `_setup(authenticator, authenticatedContent, trigger)` with the outcome of
`store.persist` as the oracle `persistOk`. The returned promise resolves in
both branches. -/
def setup (s : SessionState) (auth : Option String) (content : AuthedData)
    (trigger persistOk : Bool) : SessionStep :=
  let trig := trigger && !s.isAuthenticated
  let s1 := { s with isAuthenticated := true, authenticator := auth, authenticated := content }
  let p := updateStore s1
  if persistOk then
    ⟨p.1, if trig then [SessionEvent.authenticationSucceeded] else [], [p.2]⟩
  else
    ⟨{ p.1 with
        isAuthenticated := false
        authenticator := none
        authenticated := AuthedData.empty }, [], [p.2]⟩

/-- `_clear(trigger)`: the returned promise rejects when `store.persist`
fails (no rejection handler on `_updateStore().then(...)`). -/
def clear (s : SessionState) (trigger persistOk : Bool) :
    SessionStep × Except Unit Unit :=
  let trig := trigger && s.isAuthenticated
  let s1 := { s with
    isAuthenticated := false
    authenticator := none
    authenticated := AuthedData.empty }
  let p := updateStore s1
  if persistOk then
    (⟨p.1, if trig then [SessionEvent.invalidationSucceeded] else [], [p.2]⟩, Except.ok ())
  else (⟨p.1, [], [p.2]⟩, Except.error ())

/-- `_clearWithContent(content, trigger)`: replace the whole content, then
`_clear(trigger)`. -/
def clearWithContent (s : SessionState) (content : PersistedData)
    (trigger persistOk : Bool) : SessionStep × Except Unit Unit :=
  clear { s with authenticated := content.authenticated, other := content.other }
    trigger persistOk

/-- Session `authenticate(authenticatorFactory, ...args)`; the authenticator's
`authenticate` outcome is the oracle `authOutcome`. -/
def sessionAuthenticate (s0 : SessionState) (factory : String)
    (authOutcome : Except AuthReject TokenData) (persistOk : Bool) :
    SessionStep × Except AuthReject Unit :=
  let s := { s0 with busy := true }
  match authOutcome with
  | Except.ok content =>
    let s1 := { s with busy := false }
    (setup s1 (some factory) ⟨none, content⟩ true persistOk, Except.ok ())
  | Except.error e =>
    let s1 := { s with busy := false }
    ((clear s1 false persistOk).1, Except.error e)

/-- Session `invalidate()`; the authenticator's `invalidate` outcome is the
oracle `invOutcome`. -/
def sessionInvalidate (s0 : SessionState) (invOutcome : Except Unit Unit)
    (persistOk : Bool) : SessionStep × Except Unit Unit :=
  let s := { s0 with busy := true, attemptedTransition := none }
  if s.isAuthenticated then
    match invOutcome with
    | Except.ok _ =>
      let s1 := { s with busy := false }
      clear s1 true persistOk
    | Except.error e =>
      (⟨{ s with busy := false }, [SessionEvent.sessionInvalidationFailed], []⟩,
        Except.error e)
  else (⟨{ s with busy := false }, [], []⟩, Except.ok ())

/-- The handler bound to the store's `sessionDataUpdated` event
(`_bindToStoreEvents`); `restoreOutcome` is the oracle for the resolved
authenticator's `restore`, `persistOk` for `store.persist`. -/
def onStoreSessionDataUpdated (s0 : SessionState) (content : PersistedData)
    (restoreOutcome : Except Unit TokenData) (persistOk : Bool) : SessionStep :=
  if s0.busy then ⟨s0, [], []⟩
  else
    let s := { s0 with busy := true }
    if strEmpty content.authenticated.authenticator then
      (clearWithContent { s with busy := false } content true persistOk).1
    else
      let factory := content.authenticated.authenticator.getD ""
      let content' : PersistedData :=
        ⟨{ content.authenticated with authenticator := none }, content.other⟩
      match restoreOutcome with
      | Except.ok authenticatedContent =>
        let s1 := { s with
          authenticated := content'.authenticated
          other := content'.other
          busy := false }
        setup s1 (some factory) ⟨none, authenticatedContent⟩ true persistOk
      | Except.error _ =>
        (clearWithContent { s with busy := false } content' true persistOk).1

/-- The handler bound to the authenticator's `sessionDataUpdated` event
(`_onSessionDataUpdated`): `_setup(this.authenticator, content)` with the
`trigger` argument omitted (hence falsy). -/
def onAuthenticatorSessionDataUpdated (s : SessionState) (content : TokenData)
    (persistOk : Bool) : SessionStep :=
  setup s s.authenticator ⟨none, content⟩ false persistOk

/-! Concrete configurations and data used to instantiate the theorems. -/

/-- The authenticator's default configuration (no client id, `/token`, no
revocation endpoint, refresh enabled, scope-less refresh), outside FastBoot
and outside testing. -/
def cfgDefault : AuthConfig := ⟨none, "/token", none, true, false, false, false⟩

/-- An HTTP-success token response with no `access_token` but with
`expires_in` and a `refresh_token`. -/
def respC1 : TokenData := ⟨none, none, some 3600, none, some "RT", none⟩

/-- A session snapshot with an expired `expires_at`, a `refresh_token`, and no
`expires_in`. -/
def dataC2 : TokenData := ⟨some "AT", none, none, some 100, some "RT", none⟩

/-- A refresh response carrying only a fresh `access_token` (no `expires_in`,
no `refresh_token`, no `scope`). -/
def respC2 : TokenData := ⟨some "AT2", none, none, none, none, none⟩

/-- The session data `_refreshAccessToken` produces from `respC2` when invoked
from `restore(dataC2)`. -/
def refreshedC2 : TokenData := ⟨some "AT2", none, none, none, some "RT", none⟩

/-- A non-expired snapshot with both `expires_in` and `expires_at` set. -/
def dataW2 : TokenData := ⟨some "AT", none, some 3600, some 100, some "RT", none⟩

/-- A refresh response carrying fresh `access_token`, `expires_in` and
`refresh_token`. -/
def respW2 : TokenData := ⟨some "AT2", none, some 7200, none, some "RT2", none⟩

/-- The session data `_refreshAccessToken` produces from `respW2` at time
300. -/
def dataW2R : TokenData := ⟨some "AT2", none, some 7200, some 7200300, some "RT2", none⟩

/-! Claim theorems. -/

/-- C1 (counterexample): on an HTTP-success response with no `access_token`
but with `expires_in = 3600` and `refresh_token = "RT"`, `authenticate` does
schedule a refresh, does attach `expires_at` to the response object, and
rejects with the fixed message rather than the raw error response —
contradicting the claim that no refresh is scheduled and no `expires_at` is
attached. -/
theorem oauth2_authenticate_invalid_counterexample :
    (authAuthenticate cfgDefault 5000 0 (Except.ok respC1) []).timers =
      [⟨some 3600, some "RT", 3595000⟩] ∧
    (authAuthenticate cfgDefault 5000 0 (Except.ok respC1) []).response =
      some { respC1 with expires_at := some 3600000 } ∧
    (authAuthenticate cfgDefault 5000 0 (Except.ok respC1) []).result =
      Except.error (AuthReject.msg "access_token is missing in server response") := by
  decide

/-- C1 (amended): on an HTTP-success response whose `access_token` is empty or
missing, `authenticate` rejects with the message `"access_token is missing in
server response"` (the raw error response is used only when the HTTP call
itself fails); processing still continues, so the refresh scheduling is
exactly the one a valid response with the same `expires_in`/`refresh_token`
would get, and `expires_at` is attached to the response object whenever
`expires_in` is present. -/
theorem oauth2_authenticate_invalid_spec (cfg : AuthConfig) (offset now : Int)
    (resp : TokenData) (pending : List RefreshTimer)
    (h : strEmpty resp.access_token = true) :
    (authAuthenticate cfg offset now (Except.ok resp) pending).result =
      Except.error (AuthReject.msg "access_token is missing in server response") ∧
    (authAuthenticate cfg offset now (Except.ok resp) pending).timers =
      (authAuthenticate cfg offset now
        (Except.ok { resp with access_token := some "t" }) pending).timers ∧
    (∀ e : Int, resp.expires_in = some e →
      (authAuthenticate cfg offset now (Except.ok resp) pending).response =
        some { resp with expires_at := some (now + e * 1000) }) ∧
    (resp.expires_in = none →
      (authAuthenticate cfg offset now (Except.ok resp) pending).response = some resp) := by
  refine ⟨?_, ?_, ?_, ?_⟩
  · simp [authAuthenticate, validate, h]
  · simp only [authAuthenticate, validate, h]
    split <;> rfl
  · intro e he
    simp [authAuthenticate, validate, h, he]
  · intro he
    simp [authAuthenticate, validate, h, he]

/-- C1 (witness). -/
theorem oauth2_authenticate_invalid_spec_witness :
    (authAuthenticate cfgDefault 5000 0 (Except.ok respC1) []).result =
      Except.error (AuthReject.msg "access_token is missing in server response") ∧
    (authAuthenticate cfgDefault 5000 0 (Except.ok respC1) []).response =
      some { respC1 with expires_at := some 3600000 } :=
  ⟨(oauth2_authenticate_invalid_spec cfgDefault 5000 0 respC1 [] (by decide)).1,
    (oauth2_authenticate_invalid_spec cfgDefault 5000 0 respC1 [] (by decide)).2.2.1
      3600 rfl⟩

/-- C2 (counterexample): restoring the expired snapshot `dataC2` (original
`expires_at = 100`, no `expires_in`) at time 200 with refresh enabled, against
a refresh response with no `expires_in`, succeeds but yields data with no
`expires_at` at all — not an `expires_at` strictly greater than the
snapshot's. -/
theorem oauth2_restore_expired_counterexample :
    (authRestore cfgDefault 5000 200 200 dataC2 (Except.ok respC2) []).result =
      Except.ok refreshedC2 ∧
    refreshedC2.expires_at = none ∧ dataC2.expires_at = some 100 := by
  decide

/-- C2 (amended): `restore(data)` — if `expires_at` is set and in the past,
then with refresh enabled the outcome is exactly that of an immediate
`_refreshAccessToken` on the stored `expires_in`/`refresh_token`/`scope`, and
with refresh disabled it rejects; if `expires_at` is absent or not in the
past, it resolves with `data` unchanged exactly when `access_token` is
non-empty and rejects otherwise. In the expired-with-refresh-enabled case a
successful outcome carries an `expires_at` strictly greater than the
snapshot's original one, provided the refresh determines a non-negative
`expires_in` (from the refresh response, falling back to the snapshot's);
with no `expires_in` available the refreshed data has no `expires_at`. -/
theorem oauth2_restore_spec (cfg : AuthConfig) (offset now nowR : Int)
    (data : TokenData) (response : Except Unit TokenData)
    (pending : List RefreshTimer) :
    (isExpired data now = true → cfg.refreshAccessTokens = true →
      authRestore cfg offset now nowR data response pending =
        refreshAccessToken cfg offset nowR data.expires_in data.refresh_token
          data.scope response pending) ∧
    (isExpired data now = true → cfg.refreshAccessTokens = false →
      (authRestore cfg offset now nowR data response pending).result =
        Except.error ()) ∧
    (isExpired data now = false → strEmpty data.access_token = false →
      (authRestore cfg offset now nowR data response pending).result =
        Except.ok data) ∧
    (isExpired data now = false → strEmpty data.access_token = true →
      (authRestore cfg offset now nowR data response pending).result =
        Except.error ()) ∧
    (∀ orig e d resp, data.expires_at = some orig → orig < now → now ≤ nowR →
      cfg.refreshAccessTokens = true → response = Except.ok resp →
      orIntJS resp.expires_in data.expires_in = some e → 0 ≤ e →
      (authRestore cfg offset now nowR data response pending).result =
        Except.ok d →
      d.expires_at = some (nowR + e * 1000) ∧ orig < nowR + e * 1000) := by
  refine ⟨?_, ?_, ?_, ?_, ?_⟩
  · intro hx hr
    simp [authRestore, hx, hr]
  · intro hx hr
    simp [authRestore, hx, hr]
  · intro hx hv
    simp [authRestore, hx, validate, hv]
  · intro hx hv
    simp [authRestore, hx, validate, hv]
  · intro orig e d resp horig hlt hle hr hresp hei he hres
    have hx : isExpired data now = true := by
      simp [isExpired, horig, hlt]
    rw [hresp] at hres
    simp [authRestore, hx, hr, refreshAccessToken, hei] at hres
    constructor
    · rw [← hres]
      split <;> rfl
    · omega

/-- C2 (witness). -/
theorem oauth2_restore_spec_witness :
    authRestore cfgDefault 5000 200 300 dataW2 (Except.ok respW2) [] =
      refreshAccessToken cfgDefault 5000 300 dataW2.expires_in dataW2.refresh_token
        dataW2.scope (Except.ok respW2) [] ∧
    dataW2R.expires_at = some (300 + 7200 * 1000) ∧ (100 : Int) < 300 + 7200 * 1000 :=
  ⟨(oauth2_restore_spec cfgDefault 5000 200 300 dataW2 (Except.ok respW2) []).1
      (by decide) rfl,
    (oauth2_restore_spec cfgDefault 5000 200 300 dataW2 (Except.ok respW2) []).2.2.2.2
      100 7200 dataW2R respW2 rfl (by decide) (by decide) rfl rfl (by decide) (by decide)
      (by decide)⟩

theorem strEmpty_none : strEmpty none = true := rfl

theorem strEmpty_some (s : String) : strEmpty (some s) = s.isEmpty := rfl

/-- Field-preservation facts about `_updateStore`. -/
theorem updateStore_proj (s : SessionState) :
    (updateStore s).1.isAuthenticated = s.isAuthenticated ∧
    (updateStore s).1.authenticator = s.authenticator ∧
    (updateStore s).1.other = s.other ∧
    (updateStore s).1.busy = s.busy ∧
    (updateStore s).1.attemptedTransition = s.attemptedTransition ∧
    (updateStore s).1.authenticated.payload = s.authenticated.payload ∧
    (updateStore s).2.other = s.other ∧
    (updateStore s).2.authenticated = (updateStore s).1.authenticated := by
  unfold updateStore injectAuthenticator
  split <;> simp

/-- C3: a store `sessionDataUpdated` notification is dropped (state, events
and persistence untouched) when `busy` is set; otherwise, with persistence
succeeding, a payload naming an authenticator whose `restore` resolves is
installed via `_setup` with `trigger` (emitting `authenticationSucceeded` iff
previously unauthenticated), and a failed `restore` or a missing authenticator
name clears the session with `trigger` (emitting `invalidationSucceeded` iff
previously authenticated). -/
theorem session_store_event_spec (s0 : SessionState) (content : PersistedData)
    (ro : Except Unit TokenData) (p : Bool) :
    (s0.busy = true → onStoreSessionDataUpdated s0 content ro p = ⟨s0, [], []⟩) ∧
    (s0.busy = false → p = true →
      ((∀ f tc, content.authenticated.authenticator = some f → f.isEmpty = false →
          ro = Except.ok tc →
          (onStoreSessionDataUpdated s0 content ro p).state.isAuthenticated = true ∧
          (onStoreSessionDataUpdated s0 content ro p).state.authenticator = some f ∧
          (onStoreSessionDataUpdated s0 content ro p).state.authenticated.payload = tc ∧
          (onStoreSessionDataUpdated s0 content ro p).events =
            (if s0.isAuthenticated then [] else [SessionEvent.authenticationSucceeded])) ∧
        (∀ f, content.authenticated.authenticator = some f → f.isEmpty = false →
          ro = Except.error () →
          (onStoreSessionDataUpdated s0 content ro p).state.isAuthenticated = false ∧
          (onStoreSessionDataUpdated s0 content ro p).state.authenticator = none ∧
          (onStoreSessionDataUpdated s0 content ro p).state.authenticated =
            AuthedData.empty ∧
          (onStoreSessionDataUpdated s0 content ro p).events =
            (if s0.isAuthenticated then [SessionEvent.invalidationSucceeded] else [])) ∧
        (strEmpty content.authenticated.authenticator = true →
          (onStoreSessionDataUpdated s0 content ro p).state.isAuthenticated = false ∧
          (onStoreSessionDataUpdated s0 content ro p).state.authenticator = none ∧
          (onStoreSessionDataUpdated s0 content ro p).state.authenticated =
            AuthedData.empty ∧
          (onStoreSessionDataUpdated s0 content ro p).events =
            (if s0.isAuthenticated then [SessionEvent.invalidationSucceeded] else [])))) := by
  refine ⟨?_, ?_⟩
  · intro hb
    simp [onStoreSessionDataUpdated, hb]
  · intro hb hp
    refine ⟨?_, ?_, ?_⟩
    · intro f tc hf hfe hro
      cases hA : s0.isAuthenticated <;>
        simp [onStoreSessionDataUpdated, hb, hp, hf, hfe, hro, hA, strEmpty, setup,
          updateStore, injectAuthenticator]
    · intro f hf hfe hro
      cases hA : s0.isAuthenticated <;>
        simp [onStoreSessionDataUpdated, hb, hp, hf, hfe, hro, hA, strEmpty,
          clearWithContent, clear, updateStore, injectAuthenticator, AuthedData.empty,
          TokenData.empty]
    · intro hf
      cases hA : s0.isAuthenticated <;>
        simp [onStoreSessionDataUpdated, hb, hp, hf, hA, strEmpty_none, clearWithContent,
          clear, updateStore, injectAuthenticator, AuthedData.empty, TokenData.empty]

def tcW : TokenData := ⟨some "AT", none, none, none, none, none⟩

def s0quietW : SessionState := ⟨false, none, AuthedData.empty, [], none, false⟩

def s0busyW : SessionState := ⟨false, none, AuthedData.empty, [], none, true⟩

def contentW : PersistedData := ⟨⟨some "authenticator:oauth2", tcW⟩, []⟩

/-- C3 (witness). -/
theorem session_store_event_spec_witness :
    onStoreSessionDataUpdated s0busyW contentW (Except.ok tcW) true =
      ⟨s0busyW, [], []⟩ ∧
    (onStoreSessionDataUpdated s0quietW contentW (Except.ok tcW) true).state.authenticated.payload =
      tcW ∧
    (onStoreSessionDataUpdated s0quietW contentW (Except.ok tcW) true).events =
      (if s0quietW.isAuthenticated then [] else [SessionEvent.authenticationSucceeded]) :=
  ⟨(session_store_event_spec s0busyW contentW (Except.ok tcW) true).1 rfl,
    (((session_store_event_spec s0quietW contentW (Except.ok tcW) true).2 rfl rfl).1
      "authenticator:oauth2" tcW rfl (by decide) rfl).2.2.1,
    (((session_store_event_spec s0quietW contentW (Except.ok tcW) true).2 rfl rfl).1
      "authenticator:oauth2" tcW rfl (by decide) rfl).2.2.2⟩

/-- C4: if persisting during `_setup` fails, the in-memory session state is
rolled back to unauthenticated (`isAuthenticated = false`, no authenticator,
empty authenticated content); if it succeeds, the state change was handed to
`store.persist` (the persisted snapshot equals the reported in-memory
content) before `_setup` resolves. -/
theorem session_setup_spec (s : SessionState) (auth : Option String)
    (content : AuthedData) (trigger : Bool) :
    ((setup s auth content trigger false).state.isAuthenticated = false ∧
      (setup s auth content trigger false).state.authenticator = none ∧
      (setup s auth content trigger false).state.authenticated = AuthedData.empty) ∧
    ((setup s auth content trigger true).state.isAuthenticated = true ∧
      (setup s auth content trigger true).persisted =
        [⟨(setup s auth content trigger true).state.authenticated,
          (setup s auth content trigger true).state.other⟩]) := by
  refine ⟨?_, ?_⟩ <;> unfold setup updateStore injectAuthenticator <;>
    by_cases hsa : strEmpty auth = true <;> simp [hsa]

/-- C5: `invalidate` leaves no pending refresh timer, always resolves
(regardless of the individual revocation outcomes), issues no request when no
revocation endpoint is configured, and otherwise issues exactly one revocation
request per present token, tagged with its `token_type_hint`. -/
theorem oauth2_invalidate_spec (cfg : AuthConfig) (data : TokenData)
    (outcomes : List Bool) (pending : List RefreshTimer) :
    (authInvalidate cfg data outcomes pending).timers = [] ∧
    (authInvalidate cfg data outcomes pending).result = Except.ok () ∧
    (strEmpty cfg.serverTokenRevocationEndpoint = true →
      (authInvalidate cfg data outcomes pending).requests = []) ∧
    (∀ ep, cfg.serverTokenRevocationEndpoint = some ep → ep.isEmpty = false →
      (authInvalidate cfg data outcomes pending).requests =
        (if strEmpty data.access_token then []
          else [⟨ep, "access_token", data.access_token.getD ""⟩]) ++
        (if strEmpty data.refresh_token then []
          else [⟨ep, "refresh_token", data.refresh_token.getD ""⟩])) := by
  refine ⟨?_, ?_, ?_, ?_⟩
  · unfold authInvalidate
    split
    · rfl
    · split <;> split <;> split <;> rfl
  · unfold authInvalidate
    split
    · rfl
    · split <;> split <;> split <;> rfl
  · intro h
    simp [authInvalidate, h]
  · intro ep hep hepe
    unfold authInvalidate
    rw [hep]
    simp only [strEmpty, hepe, Bool.false_eq_true, if_false, Option.getD_some]
    split <;> rfl

def cfgRevoke : AuthConfig := ⟨none, "/token", some "/revoke", true, false, false, false⟩

def dataTokens : TokenData := ⟨some "AT", none, none, none, some "RT", none⟩

/-- C5 (witness). -/
theorem oauth2_invalidate_spec_witness :
    (authInvalidate cfgRevoke dataTokens [true, false] []).timers = [] ∧
    (authInvalidate cfgRevoke dataTokens [true, false] []).result = Except.ok () ∧
    (authInvalidate cfgDefault dataTokens [] []).requests = [] ∧
    (authInvalidate cfgRevoke dataTokens [true, false] []).requests =
      (if strEmpty dataTokens.access_token then []
        else [⟨"/revoke", "access_token", dataTokens.access_token.getD ""⟩]) ++
      (if strEmpty dataTokens.refresh_token then []
        else [⟨"/revoke", "refresh_token", dataTokens.refresh_token.getD ""⟩]) :=
  ⟨(oauth2_invalidate_spec cfgRevoke dataTokens [true, false] []).1,
    (oauth2_invalidate_spec cfgRevoke dataTokens [true, false] []).2.1,
    (oauth2_invalidate_spec cfgDefault dataTokens [] []).2.2.1 rfl,
    (oauth2_invalidate_spec cfgRevoke dataTokens [true, false] []).2.2.2 "/revoke" rfl
      (by decide)⟩

/-- C6: `_setup` triggers at most one event, and `authenticationSucceeded` is
only ever triggered on a genuine Unauthenticated-to-Authenticated transition
(previously unauthenticated, `trigger` passed, persistence succeeded); the
authenticator-emitted `sessionDataUpdated` handler (token refresh) triggers no
event at all and simply replaces the authenticated content. -/
theorem session_events_spec (s : SessionState) (auth : Option String)
    (content : AuthedData) (trigger persistOk : Bool) (tc : TokenData) :
    (setup s auth content trigger persistOk).events.length ≤ 1 ∧
    (SessionEvent.authenticationSucceeded ∈ (setup s auth content trigger persistOk).events →
      s.isAuthenticated = false ∧ trigger = true ∧ persistOk = true ∧
      (setup s auth content trigger persistOk).state.isAuthenticated = true) ∧
    (onAuthenticatorSessionDataUpdated s tc persistOk).events = [] ∧
    (persistOk = true →
      (onAuthenticatorSessionDataUpdated s tc persistOk).state.authenticated.payload = tc) := by
  refine ⟨?_, ?_, ?_, ?_⟩
  · cases hp : persistOk <;> cases ht : trigger <;> cases hA : s.isAuthenticated <;>
      simp [setup, updateStore, injectAuthenticator, hp, ht, hA]
  · intro hm
    cases hp : persistOk <;> cases ht : trigger <;> cases hA : s.isAuthenticated <;>
      rw [hp, ht] at hm <;> simp [setup, updateStore, injectAuthenticator, hA] at hm <;>
      refine ⟨rfl, rfl, rfl, ?_⟩ <;>
      simp [setup, updateStore, injectAuthenticator, hA] <;> split <;> simp
  · cases hp : persistOk <;> cases hA : s.isAuthenticated <;>
      simp [onAuthenticatorSessionDataUpdated, setup, updateStore, injectAuthenticator,
        hp, hA]
  · intro hp
    cases hA : s.isAuthenticated <;>
      simp [onAuthenticatorSessionDataUpdated, setup, updateStore, injectAuthenticator,
        hp, hA] <;> split <;> simp [injectAuthenticator]

def contentAuthedW : AuthedData := ⟨none, tcW⟩

/-- C6 (witness). -/
theorem session_events_spec_witness :
    (setup s0quietW (some "authenticator:oauth2") contentAuthedW true true).state.isAuthenticated =
      true ∧
    (onAuthenticatorSessionDataUpdated s0quietW tcW true).events = [] ∧
    (onAuthenticatorSessionDataUpdated s0quietW tcW true).state.authenticated.payload = tcW :=
  ⟨((session_events_spec s0quietW (some "authenticator:oauth2") contentAuthedW true true
      tcW).2.1 (by decide)).2.2.2,
    (session_events_spec s0quietW (some "authenticator:oauth2") contentAuthedW true true
      tcW).2.2.1,
    (session_events_spec s0quietW (some "authenticator:oauth2") contentAuthedW true true
      tcW).2.2.2 rfl⟩

/-- C7: when the authenticator's `authenticate` rejects, the session clears
its local state (unauthenticated, no authenticator, empty authenticated
content), hands the cleared state to `store.persist`, rejects with the
original authenticator error whatever the persistence outcome, and has `busy`
cleared when it settles. -/
theorem session_authenticate_failure_spec (s0 : SessionState) (factory : String)
    (e : AuthReject) (persistOk : Bool) :
    (sessionAuthenticate s0 factory (Except.error e) persistOk).2 = Except.error e ∧
    (sessionAuthenticate s0 factory (Except.error e) persistOk).1.state =
      { s0 with
        isAuthenticated := false
        authenticator := none
        authenticated := AuthedData.empty
        busy := false } ∧
    (sessionAuthenticate s0 factory (Except.error e) persistOk).1.persisted =
      [⟨AuthedData.empty, s0.other⟩] ∧
    (sessionAuthenticate s0 factory (Except.error e) persistOk).1.events = [] := by
  cases persistOk <;>
    exact ⟨rfl, rfl, rfl, rfl⟩

/-- C8: a refresh is (newly) scheduled only when refresh is enabled, the
environment is neither FastBoot nor testing, a refresh token is present, an
expiry is known (directly or derived from `expires_in`), and that expiry lies
beyond `now - offset`; the new timer (with delay `expiresAt - now - offset`)
replaces any previously pending one, so at most one refresh timer is ever
pending. -/
theorem oauth2_schedule_spec (cfg : AuthConfig) (offset now : Int)
    (ei ea : Option Int) (rt : Option String) (pending : List RefreshTimer)
    (hlen : pending.length ≤ 1) :
    (scheduleAccessTokenRefresh cfg offset now ei ea rt pending).length ≤ 1 ∧
    (∀ t, t ∈ scheduleAccessTokenRefresh cfg offset now ei ea rt pending →
      t ∉ pending →
      scheduleAccessTokenRefresh cfg offset now ei ea rt pending = [t] ∧
      cfg.refreshAccessTokens = true ∧ cfg.isFastBoot = false ∧
      cfg.isTesting = false ∧ strEmpty rt = false ∧
      ∃ v, derivedExpiry now ei ea = some v ∧ now - offset < v ∧
        t = ⟨ei, rt, v - now - offset⟩) := by
  have hcases : scheduleAccessTokenRefresh cfg offset now ei ea rt pending = pending ∨
      (scheduleAccessTokenRefresh cfg offset now ei ea rt pending = [] ∧
        cfg.isTesting = true) ∨
      (∃ v, derivedExpiry now ei ea = some v ∧ cfg.refreshAccessTokens = true ∧
        cfg.isFastBoot = false ∧ cfg.isTesting = false ∧ strEmpty rt = false ∧
        now - offset < v ∧
        scheduleAccessTokenRefresh cfg offset now ei ea rt pending =
          [⟨ei, rt, v - now - offset⟩]) := by
    by_cases hra : cfg.refreshAccessTokens = true
    · by_cases hfb : cfg.isFastBoot = true
      · left
        simp [scheduleAccessTokenRefresh, hra, hfb]
      · rw [Bool.not_eq_true] at hfb
        rcases hde : derivedExpiry now ei ea with _ | v
        · left
          simp [scheduleAccessTokenRefresh, hra, hfb, hde]
        · by_cases hrt : strEmpty rt = true
          · left
            simp [scheduleAccessTokenRefresh, hra, hfb, hde, hrt]
          · rw [Bool.not_eq_true] at hrt
            by_cases hv : now - offset < v
            · by_cases hts : cfg.isTesting = true
              · right; left
                refine ⟨?_, hts⟩
                simp [scheduleAccessTokenRefresh, hra, hfb, hde, hrt, hv, hts]
              · rw [Bool.not_eq_true] at hts
                right; right
                refine ⟨v, rfl, hra, hfb, hts, hrt, hv, ?_⟩
                simp [scheduleAccessTokenRefresh, hra, hfb, hde, hrt, hv, hts]
            · left
              simp [scheduleAccessTokenRefresh, hra, hfb, hde, hrt, hv]
    · rw [Bool.not_eq_true] at hra
      left
      simp [scheduleAccessTokenRefresh, hra]
  constructor
  · rcases hcases with h | ⟨h, _⟩ | ⟨v, _, _, _, _, _, _, h⟩ <;> rw [h]
    · exact hlen
    · simp
    · simp
  · intro t ht hnp
    rcases hcases with h | ⟨h, _⟩ | ⟨v, hde, h2, h3, h4, h5, h6, h⟩
    · rw [h] at ht
      exact absurd ht hnp
    · rw [h] at ht
      simp at ht
    · rw [h] at ht
      simp at ht
      subst ht
      exact ⟨h, h2, h3, h4, h5, v, hde, h6, rfl⟩

def timerW : RefreshTimer := ⟨some 3600, some "rt", 3595000⟩

/-- C8 (witness). -/
theorem oauth2_schedule_spec_witness :
    (scheduleAccessTokenRefresh cfgDefault 5000 0 (some 3600) none (some "rt") []).length ≤ 1 ∧
    scheduleAccessTokenRefresh cfgDefault 5000 0 (some 3600) none (some "rt") [] =
      [timerW] :=
  ⟨(oauth2_schedule_spec cfgDefault 5000 0 (some 3600) none (some "rt") [] (by decide)).1,
    ((oauth2_schedule_spec cfgDefault 5000 0 (some 3600) none (some "rt") []
      (by decide)).2 timerW (by decide) (by decide)).1⟩

/-- C9: `invalidate` on a session that is not authenticated resolves
immediately as a no-op (no authenticator call, no event, no persistence, state
unchanged apart from `busy` and the cleared `attemptedTransition`); on every
`invalidate` call, whatever the path, `attemptedTransition` ends up
cleared. -/
theorem session_invalidate_noop_spec (s0 : SessionState) (inv : Except Unit Unit)
    (persistOk : Bool) :
    (s0.isAuthenticated = false →
      sessionInvalidate s0 inv persistOk =
        (⟨{ s0 with busy := false, attemptedTransition := none }, [], []⟩,
          Except.ok ())) ∧
    (sessionInvalidate s0 inv persistOk).1.state.attemptedTransition = none := by
  constructor
  · intro h
    simp [sessionInvalidate, h]
  · cases h : s0.isAuthenticated
    · simp [sessionInvalidate, h]
    · cases inv with
      | ok u =>
        cases persistOk <;>
          simp [sessionInvalidate, h, clear, updateStore, injectAuthenticator, strEmpty]
      | error u =>
        simp [sessionInvalidate, h]

/-- C9 (witness). -/
theorem session_invalidate_noop_spec_witness :
    sessionInvalidate s0quietW (Except.ok ()) true =
      (⟨{ s0quietW with busy := false, attemptedTransition := none }, [], []⟩,
        Except.ok ()) ∧
    (sessionInvalidate s0quietW (Except.ok ()) true).1.state.attemptedTransition = none :=
  ⟨(session_invalidate_noop_spec s0quietW (Except.ok ()) true).1 rfl,
    (session_invalidate_noop_spec s0quietW (Except.ok ()) true).2⟩

/-- C10: with an authenticator bound, every `_updateStore` persists the
authenticated sub-object with the `authenticator` key set — to the pre-existing
value when the sub-object already carries one, else to the bound
authenticator's identifier — leaving the payload and the other content keys
untouched, and keeps the in-memory content in sync with the persisted
snapshot; with no authenticator bound the content is persisted as-is. -/
theorem session_update_store_spec (s : SessionState) :
    (strEmpty s.authenticator = true →
      updateStore s = (s, ⟨s.authenticated, s.other⟩)) ∧
    (∀ a, s.authenticator = some a → a.isEmpty = false →
      ((s.authenticated.authenticator = none →
          (updateStore s).2.authenticated.authenticator = some a) ∧
        (∀ p, s.authenticated.authenticator = some p →
          (updateStore s).2.authenticated.authenticator = some p) ∧
        (updateStore s).2.authenticated.payload = s.authenticated.payload ∧
        (updateStore s).2.other = s.other ∧
        (updateStore s).1.authenticated = (updateStore s).2.authenticated)) := by
  constructor
  · intro h
    simp [updateStore, h]
  · intro a ha hae
    refine ⟨?_, ?_, ?_, ?_, ?_⟩ <;>
      simp [updateStore, strEmpty, ha, hae, injectAuthenticator]
    · intro h0
      simp [h0]
    · intro p hp
      simp [hp]

def sAuthW : SessionState := ⟨true, some "authenticator:oauth2", ⟨none, tcW⟩, [], none, false⟩

def sPreW : SessionState :=
  ⟨true, some "authenticator:oauth2", ⟨some "authenticator:other", tcW⟩, [], none, false⟩

/-- C10 (witness). -/
theorem session_update_store_spec_witness :
    updateStore s0quietW = (s0quietW, ⟨s0quietW.authenticated, s0quietW.other⟩) ∧
    (updateStore sAuthW).2.authenticated.authenticator = some "authenticator:oauth2" ∧
    (updateStore sPreW).2.authenticated.authenticator = some "authenticator:other" :=
  ⟨(session_update_store_spec s0quietW).1 rfl,
    ((session_update_store_spec sAuthW).2 "authenticator:oauth2" rfl (by decide)).1 rfl,
    ((session_update_store_spec sPreW).2 "authenticator:oauth2" rfl (by decide)).2.1
      "authenticator:other" rfl⟩

end ESA
